import Mathlib

/-!
Shallow embedding of `cula.py` (Python interface to the CULA toolkit) and
verification of its specification claims.

The module provides: translation of CULA status codes to exception classes,
a module-load guard for the native shared library, and an `svd` wrapper that
marshals a numeric array to the native `culaSgesvd` / `culaCgesvd` entry
points.

Modelling conventions:
- numpy arrays are modelled by their shape and dtype (`PyArr`); element data
  is irrelevant to the claims, which concern shapes, dtypes, error classes
  and control flow;
- the caller-visible wrapper (`__array_wrap__` subtype, e.g. `np.matrix`)
  is an `Option String` tag (`PyObj`);
- the three native calls `svd` can make (first gesvd call, `culaInitialize`,
  second gesvd call) are given their integer return statuses by a
  `NativeEnv` oracle, so every execution of the wrapper corresponds to one
  choice of `NativeEnv`;
- Python exceptions are the inductive `PyExc`; a function that can raise
  returns `Except PyExc _`;
- buffer aliasing is tracked by a `sharesCallerBuffer` flag on `ArrRef`:
  numpy operations that allocate (`fastCopyAndTranspose`, `astype`,
  `np.zeros`, `np.empty`) produce `false`, and `np.asarray` on an existing
  array keeps the caller's buffer (`true`).
-/

/-- The numpy dtypes relevant to `cula.py`. -/
inductive NpType
  | float32
  | float64
  | complex64
  | complex128
  | int32
  | int64
  deriving DecidableEq, Repr

/-- Embedding of `np.iscomplexobj` restricted to dtypes: true exactly for
complex dtypes. -/
def isComplexType : NpType → Bool
  | NpType.complex64 => true
  | NpType.complex128 => true
  | _ => false

/-- A numpy ndarray, modelled by shape and dtype. -/
structure PyArr where
  shape : List Nat
  dtype : NpType
  deriving DecidableEq, Repr

/-- A caller-visible Python value: an array plus the array-subtype wrapper it
is carried in (`some "matrix"` for an `np.matrix`, `none` for a plain
ndarray). -/
structure PyObj where
  arr : PyArr
  subtype : Option String
  deriving DecidableEq, Repr

/-- The exception kinds defined in `cula.py` lines 27-74: the `culaError`
subclasses. -/
inductive CulaKind
  | culaNotFoundError
  | culaNotInitializedError
  | culaNoHardwareError
  | culaInsufficientRuntimeError
  | culaInsufficientComputeCapabilityError
  | culaInsufficientMemoryError
  | culaFeatureNotImplementedError
  | culaArgumentError
  | culaDataError
  | culaBlasError
  | culaRuntimeError
  deriving DecidableEq, Repr

/-- Python exceptions that the embedded code can raise. `culaExc` covers the
`culaError` subclass taxonomy; `nameError`, `valueError`, `keyError` and
`linAlgError` are the interpreter-level and numpy-level exceptions the module
can actually produce. -/
inductive PyExc
  | nameError (name : String)
  | valueError (msg : String)
  | keyError (key : Int)
  | linAlgError (msg : String)
  | culaExc (kind : CulaKind)
  deriving DecidableEq, Repr

/-- Embedding of the `culaExceptions` dictionary (`cula.py` lines 76-88):
the fixed table from integer status codes to `culaError` subclasses. -/
def culaExceptions : Int → Option CulaKind := fun status =>
  if status = -1 then some CulaKind.culaNotFoundError
  else if status = 1 then some CulaKind.culaNotInitializedError
  else if status = 2 then some CulaKind.culaNoHardwareError
  else if status = 3 then some CulaKind.culaInsufficientRuntimeError
  else if status = 4 then some CulaKind.culaInsufficientComputeCapabilityError
  else if status = 5 then some CulaKind.culaInsufficientMemoryError
  else if status = 6 then some CulaKind.culaFeatureNotImplementedError
  else if status = 7 then some CulaKind.culaArgumentError
  else if status = 8 then some CulaKind.culaDataError
  else if status = 9 then some CulaKind.culaBlasError
  else if status = 10 then some CulaKind.culaRuntimeError
  else none

/-- Embedding of `culaCheckStatus` (`cula.py` lines 91-95).  The source is

  `if status != 0: raise culaErrors[status]`

but no name `culaErrors` is defined anywhere in the module (the table is
named `culaExceptions`), so for every nonzero status evaluating the
expression `culaErrors[status]` raises `NameError` before the lookup and the
`raise` can happen.  For status 0 the function returns normally. -/
def culaCheckStatus (status : Int) : Except PyExc Unit :=
  if status ≠ 0 then Except.error (PyExc.nameError "culaErrors")
  else Except.ok ()

/-- Embedding of the module-load guard (`cula.py` lines 14-21).  The input
says whether `ctypes.cdll.LoadLibrary` succeeds.  On failure the handler
prints "libcula.so not found" and swallows the `OSError`; execution then
reaches line 20 (`_culaGetStatusString = _libcula.culaGetStatusString`),
where the unbound name `_libcula` raises `NameError`.  The result is the
list of printed lines together with how module initialization ends. -/
def moduleLoad (loadOk : Bool) : List String × Except PyExc Unit :=
  if loadOk then ([], Except.ok ())
  else (["libcula.so not found"], Except.error (PyExc.nameError "_libcula"))

/-- The two native SVD entry points (`cula.py` lines 220 and 223). -/
inductive EntryPoint
  | culaSgesvd
  | culaCgesvd
  deriving DecidableEq, Repr

/-- Oracle for the statuses the native library returns during one `svd`
execution: the first gesvd call (line 280), `culaInitialize` (line 284) and
the second gesvd call (line 286). -/
structure NativeEnv where
  firstStatus : Int
  initStatus : Int
  secondStatus : Int
  deriving DecidableEq, Repr

/-- An array value together with whether its buffer is the caller's input
buffer (true) or a freshly allocated one (false). -/
structure ArrRef where
  arr : PyArr
  sharesCallerBuffer : Bool
  deriving DecidableEq, Repr

/-- Embedding of `np.fastCopyAndTranspose`: transposes (reverses the shape)
and always allocates a fresh contiguous buffer, so the result never shares
the input buffer. -/
def npFastCopyAndTranspose (a : ArrRef) : ArrRef :=
  { arr := { shape := a.arr.shape.reverse, dtype := a.arr.dtype },
    sharesCallerBuffer := false }

/-- Embedding of `ndarray.astype`: casts to the given dtype, always copying
into a fresh buffer. -/
def astype (t : NpType) (a : ArrRef) : ArrRef :=
  { arr := { shape := a.arr.shape, dtype := t }, sharesCallerBuffer := false }

/-- Embedding of `_fastCopyAndTranspose` (`cula.py` lines 137-141): if the
array already has the target dtype, copy-and-transpose it directly;
otherwise cast it first, then copy-and-transpose. -/
def fastCopyAndTranspose (t : NpType) (a : ArrRef) : ArrRef :=
  if a.arr.dtype = t then npFastCopyAndTranspose a
  else npFastCopyAndTranspose (astype t a)

/-- Embedding of `np.size`: the number of elements, the product of the shape
entries. -/
def npSize (sh : List Nat) : Nat := sh.foldl (fun x y => x * y) 1

/-- Embedding of `ndarray.transpose` as used on the output buffers `u` and
`vt` (`cula.py` line 294): reverses the shape. -/
def transposeArr (a : PyArr) : PyArr :=
  { shape := a.shape.reverse, dtype := a.dtype }

/-- The message of the `LinAlgError` raised by `_assertRank2`
(`cula.py` lines 126-130). -/
def rankErrMsg (k : Nat) : String :=
  toString k ++ "-dimensional array given. Array must be two-dimensional"

/-- What `svd` returns on success: the triple `(wrap(u.T), s, wrap(vt.T))`
when `compute_uv` is truthy, otherwise `s` alone (`cula.py` lines 293-296). -/
inductive SvdRet
  | full (u : PyObj) (s : PyObj) (vt : PyObj)
  | valsOnly (s : PyObj)
  deriving DecidableEq, Repr

instance {ε α : Type} [DecidableEq ε] [DecidableEq α] :
    DecidableEq (Except ε α) := fun a b =>
  match a, b with
  | Except.error e, Except.error f =>
      if h : e = f then isTrue (by rw [h])
      else isFalse (by intro hh; cases hh; exact h rfl)
  | Except.error _, Except.ok _ => isFalse (by intro hh; cases hh)
  | Except.ok _, Except.error _ => isFalse (by intro hh; cases hh)
  | Except.ok v, Except.ok w =>
      if h : v = w then isTrue (by rw [h])
      else isFalse (by intro hh; cases hh; exact h rfl)

/-- Outcome of the call-and-retry block (`cula.py` lines 280-288): how the
`status` variable ends up, how many gesvd calls were made, whether
`culaInitialize` was invoked, and the status returned by the last gesvd call
that was actually made. -/
structure RetryFlow where
  outcome : Except PyExc Int
  svdCalls : Nat
  initCalled : Bool
  lastSvdStatus : Int
  deriving DecidableEq, Repr

/-- Embedding of `cula.py` lines 280-288: the first gesvd call; if its
status is nonzero, `culaInitialize` is called, its status is checked with
`culaCheckStatus` (which raises on any nonzero status), and the gesvd call
is repeated. -/
def retryBlock (env : NativeEnv) : RetryFlow :=
  if env.firstStatus ≠ 0 then
    match culaCheckStatus env.initStatus with
    | Except.error e =>
        { outcome := Except.error e, svdCalls := 1, initCalled := true,
          lastSvdStatus := env.firstStatus }
    | Except.ok _ =>
        { outcome := Except.ok env.secondStatus, svdCalls := 2,
          initCalled := true, lastSvdStatus := env.secondStatus }
  else
    { outcome := Except.ok env.firstStatus, svdCalls := 1,
      initCalled := false, lastSvdStatus := env.firstStatus }

/-- Full observable trace of one `svd` execution: the result (value returned
or exception raised), the number of native gesvd invocations, whether
`culaInitialize` was invoked, which entry point was selected, the dtype of
the buffer handed to the native routine, whether that buffer aliases the
caller's buffer, and the status of the last gesvd call made (if any). -/
structure SvdTrace where
  result : Except PyExc SvdRet
  svdCalls : Nat
  initCalled : Bool
  entry : Option EntryPoint
  bufDtype : Option NpType
  bufSharesInput : Option Bool
  lastSvdStatus : Option Int
  deriving DecidableEq, Repr

/-- Embedding of `svd` (`cula.py` lines 143-296), following the source line
by line:
`a, wrap = _makearray(a)` (210); `(m, n) = a.shape` (213), which raises
`ValueError` when the shape tuple does not have exactly two entries;
dtype narrowing and entry-point selection (217-223);
`a = _fastCopyAndTranspose(t, a)` (237); `_assertRank2(a)` (238);
`_assertNonEmpty(a)` (239); `lda = max(1, m)` (242);
`s = np.zeros(min(m, n), real_t)` (245); job flags (248-257); `u` and `vt`
buffer allocation (260-278); the call-and-retry block (280-288); the
convergence check (290-291); and the returns (293-296). -/
def svd (a : PyObj) (full_matrices compute_uv : Bool) (env : NativeEnv) :
    SvdTrace :=
  -- a, wrap = _makearray(a): np.asarray keeps the caller's buffer; wrap
  -- re-wraps an array in the caller's array subtype.
  let new : PyArr := a.arr
  let wrap : PyArr → PyObj := fun x => { arr := x, subtype := a.subtype }
  match new.shape with
  | [m, n] =>
    -- real_t = np.float32; dtype and entry point selection
    let cplx := isComplexType new.dtype
    let t : NpType := if cplx then NpType.complex64 else NpType.float32
    let entry : EntryPoint :=
      if cplx then EntryPoint.culaCgesvd else EntryPoint.culaSgesvd
    -- a = _fastCopyAndTranspose(t, a)
    let a2 : ArrRef := fastCopyAndTranspose t { arr := new, sharesCallerBuffer := true }
    if a2.arr.shape.length ≠ 2 then
      -- _assertRank2(a) raises LinAlgError
      { result := Except.error (PyExc.linAlgError (rankErrMsg a2.arr.shape.length)),
        svdCalls := 0, initCalled := false, entry := some entry,
        bufDtype := some a2.arr.dtype,
        bufSharesInput := some a2.sharesCallerBuffer, lastSvdStatus := none }
    else if npSize a2.arr.shape = 0 then
      -- _assertNonEmpty(a) raises LinAlgError
      { result := Except.error (PyExc.linAlgError "Arrays cannot be empty"),
        svdCalls := 0, initCalled := false, entry := some entry,
        bufDtype := some a2.arr.dtype,
        bufSharesInput := some a2.sharesCallerBuffer, lastSvdStatus := none }
    else
      -- s = np.zeros(min(m, n), real_t)
      let s : PyArr := { shape := [min m n], dtype := NpType.float32 }
      -- JOBU and JOBVT
      let jobu : Char :=
        if compute_uv then (if full_matrices then 'A' else 'S') else 'N'
      let jobvt : Char :=
        if compute_uv then (if full_matrices then 'A' else 'S') else 'N'
      -- LDU and transpose of U: ldu = m; jobu == 'A' -> zeros((ldu, m));
      -- jobu == 'S' -> zeros((min(m, n), ldu)); else ldu = 1, empty((1, 1))
      let u : PyArr :=
        if jobu = 'A' then { shape := [m, m], dtype := t }
        else if jobu = 'S' then { shape := [min m n, m], dtype := t }
        else { shape := [1, 1], dtype := t }
      -- LDVT and transpose of VT: jobvt == 'A' -> ldvt = n, zeros((n, n));
      -- jobvt == 'S' -> ldvt = min(m, n), zeros((n, ldvt)); else (1, 1)
      let vt : PyArr :=
        if jobvt = 'A' then { shape := [n, n], dtype := t }
        else if jobvt = 'S' then { shape := [n, min m n], dtype := t }
        else { shape := [1, 1], dtype := t }
      let flow := retryBlock env
      let mk : Except PyExc SvdRet → SvdTrace := fun r =>
        { result := r, svdCalls := flow.svdCalls, initCalled := flow.initCalled,
          entry := some entry, bufDtype := some a2.arr.dtype,
          bufSharesInput := some a2.sharesCallerBuffer,
          lastSvdStatus := some flow.lastSvdStatus }
      match flow.outcome with
      | Except.error e => mk (Except.error e)
      | Except.ok status =>
        -- if status > 0: raise LinAlgError, 'SVD did not converge'
        if 0 < status then
          mk (Except.error (PyExc.linAlgError "SVD did not converge"))
        else if compute_uv then
          mk (Except.ok (SvdRet.full (wrap (transposeArr u))
                { arr := s, subtype := none } (wrap (transposeArr vt))))
        else
          mk (Except.ok (SvdRet.valsOnly { arr := s, subtype := none }))
  | _ =>
    -- (m, n) = a.shape raises ValueError when the tuple does not unpack
    { result := Except.error (PyExc.valueError "unpacking a.shape into (m, n) failed"),
      svdCalls := 0, initCalled := false, entry := none, bufDtype := none,
      bufSharesInput := none, lastSvdStatus := none }

/-- Discriminator: is the exception one of the `culaError` subclasses? -/
def isCulaExc : PyExc → Bool
  | PyExc.culaExc _ => true
  | _ => false

/-- Discriminator: is the exception a numpy `LinAlgError`? -/
def isLinAlgErr : PyExc → Bool
  | PyExc.linAlgError _ => true
  | _ => false

lemma fastCopyAndTranspose_spec (t : NpType) (r : ArrRef) :
    fastCopyAndTranspose t r =
      { arr := { shape := r.arr.shape.reverse, dtype := t },
        sharesCallerBuffer := false } := by
  unfold fastCopyAndTranspose npFastCopyAndTranspose astype
  split
  · next h => rw [h]
  · rfl

/-- Closed form of `svd` on a non-empty two-dimensional input: the helper
against which the claim theorems are proved. -/
def svdModel (a : PyObj) (full_matrices compute_uv : Bool) (env : NativeEnv)
    (m n : Nat) : SvdTrace :=
  let cplx := isComplexType a.arr.dtype
  let t : NpType := if cplx then NpType.complex64 else NpType.float32
  let entry : EntryPoint :=
    if cplx then EntryPoint.culaCgesvd else EntryPoint.culaSgesvd
  let flow := retryBlock env
  let u : PyArr :=
    if compute_uv then
      (if full_matrices then { shape := [m, m], dtype := t }
       else { shape := [min m n, m], dtype := t })
    else { shape := [1, 1], dtype := t }
  let vt : PyArr :=
    if compute_uv then
      (if full_matrices then { shape := [n, n], dtype := t }
       else { shape := [n, min m n], dtype := t })
    else { shape := [1, 1], dtype := t }
  let mk : Except PyExc SvdRet → SvdTrace := fun r =>
    { result := r, svdCalls := flow.svdCalls, initCalled := flow.initCalled,
      entry := some entry, bufDtype := some t, bufSharesInput := some false,
      lastSvdStatus := some flow.lastSvdStatus }
  match flow.outcome with
  | Except.error e => mk (Except.error e)
  | Except.ok status =>
    if 0 < status then
      mk (Except.error (PyExc.linAlgError "SVD did not converge"))
    else if compute_uv then
      mk (Except.ok (SvdRet.full { arr := transposeArr u, subtype := a.subtype }
        { arr := { shape := [min m n], dtype := NpType.float32 }, subtype := none }
        { arr := transposeArr vt, subtype := a.subtype }))
    else
      mk (Except.ok (SvdRet.valsOnly
        { arr := { shape := [min m n], dtype := NpType.float32 }, subtype := none }))

lemma svd_eq_model (a : PyObj) (fm cu : Bool) (env : NativeEnv) (m n : Nat)
    (h : a.arr.shape = [m, n]) (hmn : m * n ≠ 0) :
    svd a fm cu env = svdModel a fm cu env m n := by
  have hm : m ≠ 0 := by intro hz; exact hmn (by simp [hz])
  have hn : n ≠ 0 := by intro hz; exact hmn (by simp [hz])
  unfold svd svdModel
  simp only [h, fastCopyAndTranspose_spec]
  simp only [List.reverse_cons, List.reverse_nil, List.nil_append,
    List.cons_append, List.length_cons, List.length_nil, npSize, List.foldl]
  norm_num [hm, hn]
  cases cu <;> cases fm <;> simp [transposeArr]

lemma svd_bad_rank (a : PyObj) (fm cu : Bool) (env : NativeEnv)
    (h : a.arr.shape.length ≠ 2) :
    svd a fm cu env =
      { result := Except.error (PyExc.valueError "unpacking a.shape into (m, n) failed"),
        svdCalls := 0, initCalled := false, entry := none, bufDtype := none,
        bufSharesInput := none, lastSvdStatus := none } := by
  unfold svd
  rcases hsh : a.arr.shape with _ | ⟨x, t1⟩
  · simp [hsh]
  · rcases t1 with _ | ⟨y, t2⟩
    · simp [hsh]
    · rcases t2 with _ | ⟨z, t3⟩
      · rw [hsh] at h
        simp at h
      · simp [hsh]

lemma svd_empty_input (a : PyObj) (fm cu : Bool) (env : NativeEnv) (m n : Nat)
    (h : a.arr.shape = [m, n]) (hmn : m * n = 0) :
    svd a fm cu env =
      { result := Except.error (PyExc.linAlgError "Arrays cannot be empty"),
        svdCalls := 0, initCalled := false,
        entry := some (if isComplexType a.arr.dtype then EntryPoint.culaCgesvd
          else EntryPoint.culaSgesvd),
        bufDtype := some (if isComplexType a.arr.dtype then NpType.complex64
          else NpType.float32),
        bufSharesInput := some false, lastSvdStatus := none } := by
  have hc : n = 0 ∨ m = 0 := by
    rcases Nat.mul_eq_zero.mp hmn with h1 | h2
    · exact Or.inr h1
    · exact Or.inl h2
  unfold svd
  simp only [h, fastCopyAndTranspose_spec]
  simp only [List.reverse_cons, List.reverse_nil, List.nil_append,
    List.cons_append, List.length_cons, List.length_nil, npSize, List.foldl]
  norm_num [hc]

/-- Discriminator: does the computation return a value (no exception)? -/
def returnsNormally : Except PyExc SvdRet → Bool
  | Except.ok _ => true
  | Except.error _ => false

lemma retryBlock_first_ok (env : NativeEnv) (h : env.firstStatus = 0) :
    retryBlock env =
      { outcome := Except.ok env.firstStatus, svdCalls := 1,
        initCalled := false, lastSvdStatus := env.firstStatus } := by
  simp [retryBlock, h]

lemma retryBlock_retry_ok (env : NativeEnv) (hf : env.firstStatus ≠ 0)
    (hi : env.initStatus = 0) :
    retryBlock env =
      { outcome := Except.ok env.secondStatus, svdCalls := 2,
        initCalled := true, lastSvdStatus := env.secondStatus } := by
  simp [retryBlock, culaCheckStatus, hf, hi]

lemma retryBlock_retry_err (env : NativeEnv) (hf : env.firstStatus ≠ 0)
    (hi : env.initStatus ≠ 0) :
    retryBlock env =
      { outcome := Except.error (PyExc.nameError "culaErrors"), svdCalls := 1,
        initCalled := true, lastSvdStatus := env.firstStatus } := by
  simp [retryBlock, culaCheckStatus, hf, hi]

lemma svdModel_fields (a : PyObj) (fm cu : Bool) (env : NativeEnv) (m n : Nat) :
    (svdModel a fm cu env m n).svdCalls = (retryBlock env).svdCalls ∧
    (svdModel a fm cu env m n).initCalled = (retryBlock env).initCalled ∧
    (svdModel a fm cu env m n).entry =
      some (if isComplexType a.arr.dtype then EntryPoint.culaCgesvd
        else EntryPoint.culaSgesvd) ∧
    (svdModel a fm cu env m n).bufDtype =
      some (if isComplexType a.arr.dtype then NpType.complex64
        else NpType.float32) ∧
    (svdModel a fm cu env m n).bufSharesInput = some false ∧
    (svdModel a fm cu env m n).lastSvdStatus =
      some (retryBlock env).lastSvdStatus := by
  unfold svdModel
  cases hE : (retryBlock env).outcome with
  | error e => simp [hE]
  | ok st =>
    by_cases hst : 0 < st
    · simp [hE, hst]
    · cases cu <;> simp [hE, hst]

/-- Concrete example input: a 2x2 float64 ndarray, no array subtype. -/
def exArr22 : PyObj :=
  { arr := { shape := [2, 2], dtype := NpType.float64 }, subtype := none }

/-- Concrete environment in which every native call returns status 0. -/
def envAllOk : NativeEnv :=
  { firstStatus := 0, initStatus := 0, secondStatus := 0 }

/-- C1: the `culaExceptions` table does associate each listed status code
with the claimed exception class, and `culaCheckStatus 0` returns normally;
but for every nonzero status the function raises `NameError` instead of the
typed `culaError` subclass, because line 95 of the source reads
`raise culaErrors[status]` and the name `culaErrors` is undefined (the
table is named `culaExceptions`).  The claim states the behaviour the
function's own docstring promises; the code has a wrong-name bug. -/
theorem culaCheckStatus_nameError_bug (s : Int) (hs : s ≠ 0) :
    culaCheckStatus s = Except.error (PyExc.nameError "culaErrors") ∧
    isCulaExc (PyExc.nameError "culaErrors") = false ∧
    culaCheckStatus 0 = Except.ok () ∧
    culaExceptions (-1) = some CulaKind.culaNotFoundError ∧
    culaExceptions 1 = some CulaKind.culaNotInitializedError ∧
    culaExceptions 2 = some CulaKind.culaNoHardwareError ∧
    culaExceptions 3 = some CulaKind.culaInsufficientRuntimeError ∧
    culaExceptions 4 = some CulaKind.culaInsufficientComputeCapabilityError ∧
    culaExceptions 5 = some CulaKind.culaInsufficientMemoryError ∧
    culaExceptions 6 = some CulaKind.culaFeatureNotImplementedError ∧
    culaExceptions 7 = some CulaKind.culaArgumentError ∧
    culaExceptions 8 = some CulaKind.culaDataError ∧
    culaExceptions 9 = some CulaKind.culaBlasError ∧
    culaExceptions 10 = some CulaKind.culaRuntimeError := by
  refine ⟨?_, by decide, by decide, by decide, by decide, by decide,
    by decide, by decide, by decide, by decide, by decide, by decide,
    by decide, by decide⟩
  simp [culaCheckStatus, hs]

/-- Witness for C1 at the failing status 1: the raised exception is
`NameError`, not `culaNotInitializedError`. -/
theorem culaCheckStatus_nameError_bug_w :
    culaCheckStatus 1 = Except.error (PyExc.nameError "culaErrors") ∧
    isCulaExc (PyExc.nameError "culaErrors") = false ∧
    culaCheckStatus 0 = Except.ok () ∧
    culaExceptions (-1) = some CulaKind.culaNotFoundError ∧
    culaExceptions 1 = some CulaKind.culaNotInitializedError ∧
    culaExceptions 2 = some CulaKind.culaNoHardwareError ∧
    culaExceptions 3 = some CulaKind.culaInsufficientRuntimeError ∧
    culaExceptions 4 = some CulaKind.culaInsufficientComputeCapabilityError ∧
    culaExceptions 5 = some CulaKind.culaInsufficientMemoryError ∧
    culaExceptions 6 = some CulaKind.culaFeatureNotImplementedError ∧
    culaExceptions 7 = some CulaKind.culaArgumentError ∧
    culaExceptions 8 = some CulaKind.culaDataError ∧
    culaExceptions 9 = some CulaKind.culaBlasError ∧
    culaExceptions 10 = some CulaKind.culaRuntimeError :=
  culaCheckStatus_nameError_bug 1 (by decide)

/-- C8 counterexample: when the shared library fails to load, module
initialization ends with a `NameError` on the unbound `_libcula` (after
printing a message), which is not a `culaError` of the library-not-found
kind, so no distinct library-load failure is raised. -/
theorem moduleLoad_no_typed_failure :
    (moduleLoad false).2 = Except.error (PyExc.nameError "_libcula") ∧
    isCulaExc (PyExc.nameError "_libcula") = false := by decide

/-- C8 amended: when the native shared library cannot be loaded, the
`OSError` is caught and only the message "libcula.so not found" is printed;
no `culaNotFoundError` (or other `culaError`) is raised at load time, and
module initialization then fails with a `NameError` at the first attribute
access on the unbound `_libcula`.  When the library loads, initialization
completes normally and prints nothing. -/
theorem moduleLoad_prints_then_nameError :
    moduleLoad false =
      (["libcula.so not found"], Except.error (PyExc.nameError "_libcula")) ∧
    moduleLoad true = ([], Except.ok ()) := by decide

/-- C2 counterexample: the first native call returns status 8 (the "data
error" code, not the "not initialized" code 1), yet `svd` still performs the
initialize-then-retry cycle (`culaInitialize` is invoked and a second gesvd
call is made) and the execution returns a result instead of propagating a
failure.  This refutes the claim that for every nonzero first status other
than 1 no retry occurs and the failure propagates immediately. -/
theorem svd_retries_on_dataError_status :
    (svd exArr22 true true
      { firstStatus := 8, initStatus := 0, secondStatus := 0 }).initCalled
        = true ∧
    (svd exArr22 true true
      { firstStatus := 8, initStatus := 0, secondStatus := 0 }).svdCalls = 2 ∧
    returnsNormally (svd exArr22 true true
      { firstStatus := 8, initStatus := 0, secondStatus := 0 }).result
        = true := by decide

/-- C2 amended: the initialize-then-retry cycle is performed for every
nonzero status of the first native call, not only for the "not initialized"
code 1: whenever the first status is nonzero, `culaInitialize` is invoked;
if its status is 0 the native routine is re-invoked (two gesvd calls), and
the first status itself is never raised; if its status is nonzero, the
status check aborts the call before the retry (one gesvd call), raising the
`NameError` produced by the `culaCheckStatus` name bug.  Only a zero first
status skips initialization. -/
theorem svd_retries_on_any_nonzero_status (a : PyObj) (fm cu : Bool)
    (env : NativeEnv) (m n : Nat) (h : a.arr.shape = [m, n])
    (hmn : m * n ≠ 0) :
    (env.firstStatus = 0 →
      (svd a fm cu env).svdCalls = 1 ∧
      (svd a fm cu env).initCalled = false) ∧
    (env.firstStatus ≠ 0 →
      (svd a fm cu env).initCalled = true ∧
      (env.initStatus = 0 → (svd a fm cu env).svdCalls = 2) ∧
      (env.initStatus ≠ 0 →
        (svd a fm cu env).svdCalls = 1 ∧
        (svd a fm cu env).result =
          Except.error (PyExc.nameError "culaErrors"))) := by
  rw [svd_eq_model a fm cu env m n h hmn]
  obtain ⟨hcalls, hinit, -, -, -, -⟩ := svdModel_fields a fm cu env m n
  constructor
  · intro h1
    rw [hcalls, hinit, retryBlock_first_ok env h1]
    exact ⟨rfl, rfl⟩
  · intro h1
    refine ⟨?_, ?_, ?_⟩
    · rw [hinit]
      by_cases h2 : env.initStatus = 0
      · rw [retryBlock_retry_ok env h1 h2]
      · rw [retryBlock_retry_err env h1 h2]
    · intro h2
      rw [hcalls, retryBlock_retry_ok env h1 h2]
    · intro h2
      refine ⟨by rw [hcalls, retryBlock_retry_err env h1 h2], ?_⟩
      unfold svdModel
      rw [retryBlock_retry_err env h1 h2]

/-- Witness for C2 with first status 8 and a failing initialization
(status 7): initialization is attempted even though the first status is not
the "not initialized" code. -/
theorem svd_retries_on_any_nonzero_status_w :
    (({ firstStatus := 8, initStatus := 7, secondStatus := 0 } :
        NativeEnv).firstStatus = 0 →
      (svd exArr22 true true
        { firstStatus := 8, initStatus := 7, secondStatus := 0 }).svdCalls
          = 1 ∧
      (svd exArr22 true true
        { firstStatus := 8, initStatus := 7, secondStatus := 0 }).initCalled
          = false) ∧
    (({ firstStatus := 8, initStatus := 7, secondStatus := 0 } :
        NativeEnv).firstStatus ≠ 0 →
      (svd exArr22 true true
        { firstStatus := 8, initStatus := 7, secondStatus := 0 }).initCalled
          = true ∧
      (({ firstStatus := 8, initStatus := 7, secondStatus := 0 } :
          NativeEnv).initStatus = 0 →
        (svd exArr22 true true
          { firstStatus := 8, initStatus := 7, secondStatus := 0 }).svdCalls
            = 2) ∧
      (({ firstStatus := 8, initStatus := 7, secondStatus := 0 } :
          NativeEnv).initStatus ≠ 0 →
        (svd exArr22 true true
          { firstStatus := 8, initStatus := 7, secondStatus := 0 }).svdCalls
            = 1 ∧
        (svd exArr22 true true
          { firstStatus := 8, initStatus := 7, secondStatus := 0 }).result =
          Except.error (PyExc.nameError "culaErrors"))) :=
  svd_retries_on_any_nonzero_status exArr22 true true
    { firstStatus := 8, initStatus := 7, secondStatus := 0 } 2 2
    (by decide) (by decide)

/-- C3 counterexample: the retried (second) native call returns the nonzero
status -1, yet `svd` raises nothing and returns the decomposition triple to
the caller: the convergence check at line 290 only tests `status > 0`, so a
negative second status is silently ignored and partial results are
returned.  This refutes the claim that every nonzero second status raises
an error and that no failing execution returns results. -/
theorem svd_returns_despite_negative_status :
    (svd exArr22 true true
      { firstStatus := 5, initStatus := 0, secondStatus := -1 }).svdCalls
        = 2 ∧
    (svd exArr22 true true
      { firstStatus := 5, initStatus := 0, secondStatus := -1 }).lastSvdStatus
        = some (-1) ∧
    (svd exArr22 true true
      { firstStatus := 5, initStatus := 0, secondStatus := -1 }).result =
      Except.ok (SvdRet.full
        { arr := { shape := [2, 2], dtype := NpType.float32 }, subtype := none }
        { arr := { shape := [2], dtype := NpType.float32 }, subtype := none }
        { arr := { shape := [2, 2], dtype := NpType.float32 },
          subtype := none }) := by decide

/-- C3 amended: when the retried native call runs (nonzero first status,
initialization status 0), a positive second status raises the dedicated
non-convergence `LinAlgError`; but a negative (or zero) second status is
not checked at all - `svd` returns its results normally, so a negative
second-status failure is NOT surfaced and the (possibly invalid) results
are handed to the caller. -/
theorem svd_checks_only_positive_second_status (a : PyObj) (fm cu : Bool)
    (env : NativeEnv) (m n : Nat) (h : a.arr.shape = [m, n])
    (hmn : m * n ≠ 0) (hf : env.firstStatus ≠ 0) (hi : env.initStatus = 0) :
    (0 < env.secondStatus →
      (svd a fm cu env).result =
        Except.error (PyExc.linAlgError "SVD did not converge")) ∧
    (env.secondStatus ≤ 0 →
      returnsNormally (svd a fm cu env).result = true) := by
  rw [svd_eq_model a fm cu env m n h hmn]
  unfold svdModel
  rw [retryBlock_retry_ok env hf hi]
  constructor
  · intro hpos
    simp [hpos]
  · intro hneg
    have hnp : ¬ 0 < env.secondStatus := by omega
    cases cu <;> simp [hnp, returnsNormally]

/-- Witness for C3: first status 5, initialization succeeds, second status
2 (positive), on a 2x2 real input; the non-convergence error is raised. -/
theorem svd_checks_only_positive_second_status_w :
    (0 < ({ firstStatus := 5, initStatus := 0, secondStatus := 2 } :
        NativeEnv).secondStatus →
      (svd exArr22 true true
        { firstStatus := 5, initStatus := 0, secondStatus := 2 }).result =
        Except.error (PyExc.linAlgError "SVD did not converge")) ∧
    (({ firstStatus := 5, initStatus := 0, secondStatus := 2 } :
        NativeEnv).secondStatus ≤ 0 →
      returnsNormally (svd exArr22 true true
        { firstStatus := 5, initStatus := 0, secondStatus := 2 }).result
          = true) :=
  svd_checks_only_positive_second_status exArr22 true true
    { firstStatus := 5, initStatus := 0, secondStatus := 2 } 2 2
    (by decide) (by decide) (by decide) (by decide)

/-- Concrete example input: a one-dimensional float64 ndarray of shape (3,). -/
def exArr1d : PyObj :=
  { arr := { shape := [3], dtype := NpType.float64 }, subtype := none }

/-- Concrete example input: a zero-sized 2-D float64 ndarray of shape (0, 3). -/
def exArr03 : PyObj :=
  { arr := { shape := [0, 3], dtype := NpType.float64 }, subtype := none }

/-- C4 counterexample: a one-dimensional input (shape `[3]`) makes `svd`
fail at the tuple unpacking `(m, n) = a.shape` (line 213) with a
`ValueError`, not with the `LinAlgError` rank error of `_assertRank2`: the
rank assertion (line 238) only runs after a successful unpack, on the
already two-dimensional transposed copy, so it can never be the failure a
one-dimensional input sees. -/
theorem svd_1d_input_valueError :
    (svd exArr1d true true envAllOk).result =
      Except.error (PyExc.valueError "unpacking a.shape into (m, n) failed") ∧
    isLinAlgErr (PyExc.valueError "unpacking a.shape into (m, n) failed")
      = false ∧
    (svd exArr1d true true envAllOk).svdCalls = 0 := by decide

/-- C4 amended: every input that is not a non-empty two-dimensional array
is rejected before any native gesvd call (zero native calls, no
initialization): an input whose rank is not 2 fails with the `ValueError`
raised by unpacking `a.shape` into `(m, n)` - not with a `LinAlgError` rank
error - and a zero-sized two-dimensional input fails with the empty-input
`LinAlgError` from `_assertNonEmpty`. -/
theorem svd_rejects_invalid_input (a : PyObj) (fm cu : Bool)
    (env : NativeEnv)
    (hbad : a.arr.shape.length ≠ 2 ∨ npSize a.arr.shape = 0) :
    (svd a fm cu env).svdCalls = 0 ∧
    (svd a fm cu env).initCalled = false ∧
    (if a.arr.shape.length = 2 then
      (svd a fm cu env).result =
        Except.error (PyExc.linAlgError "Arrays cannot be empty")
    else
      (svd a fm cu env).result =
        Except.error (PyExc.valueError "unpacking a.shape into (m, n) failed")) := by
  by_cases hlen : a.arr.shape.length = 2
  · rcases hbad with hb | hb
    · exact absurd hlen hb
    · obtain ⟨m, n, hsh⟩ := List.length_eq_two.mp hlen
      have hmn : m * n = 0 := by
        rw [hsh] at hb
        simpa [npSize] using hb
      rw [svd_empty_input a fm cu env m n hsh hmn]
      simp [hlen]
  · rw [svd_bad_rank a fm cu env hlen]
    simp [hlen]

/-- Witness for C4 on the zero-sized two-dimensional input of shape (0, 3):
rejected with the empty-input `LinAlgError` and zero native calls. -/
theorem svd_rejects_invalid_input_w :
    (svd exArr03 true true envAllOk).svdCalls = 0 ∧
    (svd exArr03 true true envAllOk).initCalled = false ∧
    (if exArr03.arr.shape.length = 2 then
      (svd exArr03 true true envAllOk).result =
        Except.error (PyExc.linAlgError "Arrays cannot be empty")
    else
      (svd exArr03 true true envAllOk).result =
        Except.error (PyExc.valueError "unpacking a.shape into (m, n) failed")) :=
  svd_rejects_invalid_input exArr03 true true envAllOk (Or.inr (by decide))

/-- C5: whenever `svd` on a two-dimensional (m, n) input with `compute_uv`
true returns a triple (U, s, Vt), the shapes are as claimed: with
`full_matrices` true U is (m, m) and Vt is (n, n); with `full_matrices`
false U is (m, K) and Vt is (K, n) with K = min m n; and s always has
length min m n. -/
theorem svd_output_shapes (a : PyObj) (fm : Bool) (env : NativeEnv)
    (m n : Nat) (h : a.arr.shape = [m, n]) (u s vt : PyObj)
    (hres : (svd a fm true env).result = Except.ok (SvdRet.full u s vt)) :
    s.arr.shape = [min m n] ∧
    (fm = true → u.arr.shape = [m, m] ∧ vt.arr.shape = [n, n]) ∧
    (fm = false → u.arr.shape = [m, min m n] ∧
      vt.arr.shape = [min m n, n]) := by
  by_cases hmn : m * n = 0
  · rw [svd_empty_input a fm true env m n h hmn] at hres
    simp at hres
  · rw [svd_eq_model a fm true env m n h hmn] at hres
    unfold svdModel at hres
    cases hE : (retryBlock env).outcome with
    | error e => simp [hE] at hres
    | ok st =>
      by_cases hst : 0 < st
      · simp [hE, hst] at hres
      · cases fm <;> simp [hE, hst, transposeArr] at hres <;>
          obtain ⟨hu, hs, hvt⟩ := hres <;> subst hu <;> subst hs <;>
          subst hvt <;> simp

/-- Concrete example input: a 3x2 float64 ndarray, no array subtype. -/
def exArr32 : PyObj :=
  { arr := { shape := [3, 2], dtype := NpType.float64 }, subtype := none }

/-- The U returned by `svd` on `exArr32` with `full_matrices` true. -/
def exU33 : PyObj :=
  { arr := { shape := [3, 3], dtype := NpType.float32 }, subtype := none }

/-- The s returned by `svd` on `exArr32`. -/
def exS2 : PyObj :=
  { arr := { shape := [2], dtype := NpType.float32 }, subtype := none }

/-- The Vt returned by `svd` on `exArr32` with `full_matrices` true. -/
def exVt22 : PyObj :=
  { arr := { shape := [2, 2], dtype := NpType.float32 }, subtype := none }

/-- Witness for C5 on a 3x2 input with `full_matrices` true and every
native status 0: U is 3x3, Vt is 2x2, s has length 2 = min 3 2. -/
theorem svd_output_shapes_w :
    exS2.arr.shape = [min 3 2] ∧
    (true = true → exU33.arr.shape = [3, 3] ∧ exVt22.arr.shape = [2, 2]) ∧
    (true = false → exU33.arr.shape = [3, min 3 2] ∧
      exVt22.arr.shape = [min 3 2, 2]) :=
  svd_output_shapes exArr32 true envAllOk 3 2 (by decide) exU33 exS2 exVt22
    (by decide)

/-- C6 counterexample: the only native gesvd call made returns the positive
status 3, but because `culaInitialize` then returns the nonzero status 5,
the status check aborts the call (with the `NameError` of the
`culaCheckStatus` name bug) before the convergence check is reached: the
final native call's status is positive, yet the error raised is not the
dedicated "did not converge" `LinAlgError`. -/
theorem svd_positive_status_preempted :
    (svd exArr22 true true
      { firstStatus := 3, initStatus := 5, secondStatus := 0 }).svdCalls
        = 1 ∧
    (svd exArr22 true true
      { firstStatus := 3, initStatus := 5, secondStatus := 0 }).lastSvdStatus
        = some 3 ∧
    (svd exArr22 true true
      { firstStatus := 3, initStatus := 5, secondStatus := 0 }).result =
      Except.error (PyExc.nameError "culaErrors") ∧
    isLinAlgErr (PyExc.nameError "culaErrors") = false := by decide

/-- C6 amended: the dedicated "did not converge" `LinAlgError` - which is
not a `culaError` subclass - is raised exactly when the convergence check
is reached with a positive status: the first native call returned nonzero,
`culaInitialize` returned 0, and the second call's status is positive.  A
zero first status never triggers it (the status is 0 at the check), and if
`culaInitialize` fails its status check, that failure preempts the
convergence check even though the last native call's status may have been
positive. -/
theorem svd_nonconvergence_linAlgError (a : PyObj) (fm cu : Bool)
    (env : NativeEnv) (m n : Nat) (h : a.arr.shape = [m, n])
    (hmn : m * n ≠ 0) :
    (env.firstStatus ≠ 0 → env.initStatus = 0 → 0 < env.secondStatus →
      (svd a fm cu env).result =
        Except.error (PyExc.linAlgError "SVD did not converge")) ∧
    (env.firstStatus ≠ 0 → env.initStatus ≠ 0 →
      (svd a fm cu env).result =
        Except.error (PyExc.nameError "culaErrors")) ∧
    (env.firstStatus = 0 →
      returnsNormally (svd a fm cu env).result = true) ∧
    isCulaExc (PyExc.linAlgError "SVD did not converge") = false ∧
    isLinAlgErr (PyExc.linAlgError "SVD did not converge") = true := by
  rw [svd_eq_model a fm cu env m n h hmn]
  refine ⟨?_, ?_, ?_, by decide, by decide⟩
  · intro hf hi hpos
    unfold svdModel
    rw [retryBlock_retry_ok env hf hi]
    simp [hpos]
  · intro hf hi
    unfold svdModel
    rw [retryBlock_retry_err env hf hi]
  · intro hf
    unfold svdModel
    rw [retryBlock_first_ok env hf]
    have hnp : ¬ (0 : Int) < 0 := by omega
    cases cu <;> simp [hf, hnp, returnsNormally]

/-- Witness for C6: first status 2, initialization succeeds, second status
1 (positive): the non-convergence `LinAlgError` is raised, and that error
is a `LinAlgError` and not a `culaError`. -/
theorem svd_nonconvergence_linAlgError_w :
    (({ firstStatus := 2, initStatus := 0, secondStatus := 1 } :
        NativeEnv).firstStatus ≠ 0 →
      ({ firstStatus := 2, initStatus := 0, secondStatus := 1 } :
        NativeEnv).initStatus = 0 →
      0 < ({ firstStatus := 2, initStatus := 0, secondStatus := 1 } :
        NativeEnv).secondStatus →
      (svd exArr22 true true
        { firstStatus := 2, initStatus := 0, secondStatus := 1 }).result =
        Except.error (PyExc.linAlgError "SVD did not converge")) ∧
    (({ firstStatus := 2, initStatus := 0, secondStatus := 1 } :
        NativeEnv).firstStatus ≠ 0 →
      ({ firstStatus := 2, initStatus := 0, secondStatus := 1 } :
        NativeEnv).initStatus ≠ 0 →
      (svd exArr22 true true
        { firstStatus := 2, initStatus := 0, secondStatus := 1 }).result =
        Except.error (PyExc.nameError "culaErrors")) ∧
    (({ firstStatus := 2, initStatus := 0, secondStatus := 1 } :
        NativeEnv).firstStatus = 0 →
      returnsNormally (svd exArr22 true true
        { firstStatus := 2, initStatus := 0, secondStatus := 1 }).result
          = true) ∧
    isCulaExc (PyExc.linAlgError "SVD did not converge") = false ∧
    isLinAlgErr (PyExc.linAlgError "SVD did not converge") = true :=
  svd_nonconvergence_linAlgError exArr22 true true
    { firstStatus := 2, initStatus := 0, secondStatus := 1 } 2 2
    (by decide) (by decide)

/-- C7: for every accepted (non-empty two-dimensional) input, the buffer
handed to the native routine is downcast to single precision regardless of
the input dtype, and the entry point is selected by element type: a complex
input is cast to complex64 and dispatched to `culaCgesvd`, a real input is
cast to float32 and dispatched to `culaSgesvd`. -/
theorem svd_single_precision_dispatch (a : PyObj) (fm cu : Bool)
    (env : NativeEnv) (m n : Nat) (h : a.arr.shape = [m, n])
    (hmn : m * n ≠ 0) :
    (isComplexType a.arr.dtype = true →
      (svd a fm cu env).entry = some EntryPoint.culaCgesvd ∧
      (svd a fm cu env).bufDtype = some NpType.complex64) ∧
    (isComplexType a.arr.dtype = false →
      (svd a fm cu env).entry = some EntryPoint.culaSgesvd ∧
      (svd a fm cu env).bufDtype = some NpType.float32) := by
  rw [svd_eq_model a fm cu env m n h hmn]
  obtain ⟨-, -, hentry, hdtype, -, -⟩ := svdModel_fields a fm cu env m n
  constructor
  · intro hc
    rw [hentry, hdtype, hc]
    exact ⟨rfl, rfl⟩
  · intro hc
    rw [hentry, hdtype, hc]
    exact ⟨rfl, rfl⟩

/-- Concrete example input: a 2x3 complex128 ndarray, no array subtype. -/
def exArrC23 : PyObj :=
  { arr := { shape := [2, 3], dtype := NpType.complex128 }, subtype := none }

/-- Witness for C7 on a complex128 2x3 input: cast to complex64 and
dispatched to `culaCgesvd`. -/
theorem svd_single_precision_dispatch_w :
    (isComplexType exArrC23.arr.dtype = true →
      (svd exArrC23 true true envAllOk).entry =
        some EntryPoint.culaCgesvd ∧
      (svd exArrC23 true true envAllOk).bufDtype =
        some NpType.complex64) ∧
    (isComplexType exArrC23.arr.dtype = false →
      (svd exArrC23 true true envAllOk).entry =
        some EntryPoint.culaSgesvd ∧
      (svd exArrC23 true true envAllOk).bufDtype =
        some NpType.float32) :=
  svd_single_precision_dispatch exArrC23 true true envAllOk 2 3
    (by decide) (by decide)

/-- Concrete example input: a 2x2 float64 `np.matrix` (array subtype
"matrix"). -/
def exMat22 : PyObj :=
  { arr := { shape := [2, 2], dtype := NpType.float64 },
    subtype := some "matrix" }

/-- C9: on a matrix-subtype input, `svd` returns U and Vt through the
caller's wrapper but returns the singular-value vector s as a plain
ndarray: line 294 reads `return wrap(u.transpose()), s, wrap(vt.transpose())`,
wrapping only u and vt.  The docstring (lines 186-187) promises that all
return values are matrix objects when the input is one, so the claim
matches the documented intent and the code omits the wrap on s. -/
theorem svd_singular_values_not_wrapped :
    (svd exMat22 true true envAllOk).result =
      Except.ok (SvdRet.full
        { arr := { shape := [2, 2], dtype := NpType.float32 },
          subtype := some "matrix" }
        { arr := { shape := [2], dtype := NpType.float32 }, subtype := none }
        { arr := { shape := [2, 2], dtype := NpType.float32 },
          subtype := some "matrix" }) ∧
    exMat22.subtype = some "matrix" := by decide

/-- C10: `svd` never mutates the caller's input array.  In the embedding,
the only buffers the native routine writes are the transposed copy and the
freshly allocated output buffers, and mutation of the caller's array could
only occur through a buffer shared with the input; the theorem shows that
`_fastCopyAndTranspose` always returns a fresh buffer (for every target
dtype, including when the input already has the target dtype, since
`np.fastCopyAndTranspose` itself copies), and that in every `svd`
execution, successful or failing, the buffer handed to the native routine
does not alias the caller's buffer - so the caller's contents, dtype and
shape survive unchanged. -/
theorem svd_never_mutates_input (t : NpType) (r : ArrRef) (a : PyObj)
    (fm cu : Bool) (env : NativeEnv) :
    (fastCopyAndTranspose t r).sharesCallerBuffer = false ∧
    (svd a fm cu env).bufSharesInput ≠ some true := by
  constructor
  · rw [fastCopyAndTranspose_spec]
  · by_cases hlen : a.arr.shape.length = 2
    · obtain ⟨m, n, hsh⟩ := List.length_eq_two.mp hlen
      by_cases hmn : m * n = 0
      · rw [svd_empty_input a fm cu env m n hsh hmn]
        simp
      · rw [svd_eq_model a fm cu env m n hsh hmn]
        obtain ⟨-, -, -, -, hshares, -⟩ := svdModel_fields a fm cu env m n
        rw [hshares]
        simp
    · rw [svd_bad_rank a fm cu env hlen]
      simp
